import Mathlib

/-!
Shallow embedding of the Dyslexic-Overlay Electron application's overlay-state
logic (main process `src/unnamed/part_000`, preload `src/electron/preload.js`,
control-surface React component `src/unnamed/part_001`).

Numbers are modelled as rationals (the source only ever manipulates small
decimal literals such as `0.5`, `0.7`, integer pixel counts and sums thereof,
on which JavaScript double arithmetic coincides with exact rational
arithmetic at every value appearing in the claims).  JavaScript `undefined`
is modelled by `Option`; JavaScript truthiness tests on strings/numbers are
modelled explicitly (`""` and `0` are the falsy inhabitants of those types).
Side effects of the main process (persist to the electron-store, IPC sends,
window show/hide, geometry application) are modelled as an ordered event
trace emitted next to the new state.
-/

namespace DyslexicOverlay

/-- JavaScript `a !== undefined ? a : b` for an optional value. -/
def jsDefined {α : Type} (a : Option α) (b : α) : α :=
  a.getD b

/-- JavaScript `x || d` on a string value (`""` is the falsy string). -/
def strOr (x d : String) : String :=
  if x = "" then d else x

/-- JavaScript `x || d` on a numeric value (`0` is the falsy number). -/
def numOr (x d : ℚ) : ℚ :=
  if x = 0 then d else x

/-- JavaScript `a || d` where `a` may additionally be `undefined`. -/
def jsOrStr (a : Option String) (d : String) : String :=
  match a with
  | none => d
  | some x => strOr x d

/-- JavaScript `a || d` for a possibly-`undefined` number. -/
def jsOrNum (a : Option ℚ) (d : ℚ) : ℚ :=
  match a with
  | none => d
  | some x => numOr x d

/-- JavaScript truthiness of a possibly-`undefined` string (`if (data.size)`). -/
def truthyStr (a : Option String) : Bool :=
  match a with
  | none => false
  | some x => x ≠ ""

/-- The flat overlay-configuration record (`overlayState` defaults object,
`part_000` lines 8–22, and the `OverlayState` interface in `part_001`). -/
structure OverlayState where
  color : String
  opacity : ℚ
  isActive : Bool
  size : String
  customWidth : ℚ
  customHeight : ℚ
  readingGuideEnabled : Bool
  readingGuideHeight : ℚ
  readingGuidePosition : ℚ
  readingGuideStepSize : ℚ
  readingGuideBorderWidth : ℚ
  readingGuideBorderColor : String
  readingGuideBorderStyle : String
deriving DecidableEq, Repr

/-- The defaults the electron-store is initialised with (`part_000` lines 6–24). -/
def defaultOverlayState : OverlayState :=
  { color := "#ffeb99"
    opacity := 3/10
    isActive := false
    size := "fullscreen"
    customWidth := 800
    customHeight := 600
    readingGuideEnabled := false
    readingGuideHeight := 100
    readingGuidePosition := 50
    readingGuideStepSize := 1/2
    readingGuideBorderWidth := 3
    readingGuideBorderColor := "rgba(0,0,0,0.9)"
    readingGuideBorderStyle := "double" }

/-- A partial update delivered on the `update-overlay` IPC channel: each field
is either present (`some`) or `undefined` (`none`). -/
structure OverlayUpdate where
  color : Option String
  opacity : Option ℚ
  isActive : Option Bool
  size : Option String
  customWidth : Option ℚ
  customHeight : Option ℚ
  readingGuideEnabled : Option Bool
  readingGuideHeight : Option ℚ
  readingGuidePosition : Option ℚ
  readingGuideStepSize : Option ℚ
  readingGuideBorderWidth : Option ℚ
  readingGuideBorderColor : Option String
  readingGuideBorderStyle : Option String
deriving DecidableEq, Repr

/-- The all-`undefined` update (no field present). -/
def emptyUpdate : OverlayUpdate :=
  { color := none, opacity := none, isActive := none, size := none,
    customWidth := none, customHeight := none, readingGuideEnabled := none,
    readingGuideHeight := none, readingGuidePosition := none,
    readingGuideStepSize := none, readingGuideBorderWidth := none,
    readingGuideBorderColor := none, readingGuideBorderStyle := none }

/-- The merge performed at the top of the `update-overlay` handler
(`part_000` lines 308–323).  Every field except `size` uses
`data.f !== undefined ? data.f : current.f`; `size` alone uses
`data.size || current.size` (JavaScript truthiness). -/
def mergeOverlay (s : OverlayState) (d : OverlayUpdate) : OverlayState :=
  { color := jsDefined d.color s.color
    opacity := jsDefined d.opacity s.opacity
    isActive := jsDefined d.isActive s.isActive
    size := jsOrStr d.size s.size
    customWidth := jsDefined d.customWidth s.customWidth
    customHeight := jsDefined d.customHeight s.customHeight
    readingGuideEnabled := jsDefined d.readingGuideEnabled s.readingGuideEnabled
    readingGuideHeight := jsDefined d.readingGuideHeight s.readingGuideHeight
    readingGuidePosition := jsDefined d.readingGuidePosition s.readingGuidePosition
    readingGuideStepSize := jsDefined d.readingGuideStepSize s.readingGuideStepSize
    readingGuideBorderWidth := jsDefined d.readingGuideBorderWidth s.readingGuideBorderWidth
    readingGuideBorderColor := jsDefined d.readingGuideBorderColor s.readingGuideBorderColor
    readingGuideBorderStyle := jsDefined d.readingGuideBorderStyle s.readingGuideBorderStyle }

/-- Absolute window bounds, the argument of `overlayWindow.setBounds`. -/
structure Bounds where
  x : ℚ
  y : ℚ
  width : ℚ
  height : ℚ
deriving DecidableEq, Repr

/-- `Math.floor`, as a map of rationals. -/
def mathFloor (q : ℚ) : ℚ :=
  ((⌊q⌋ : ℤ) : ℚ)

/-- A window-manager action performed by `applyOverlaySize`. -/
inductive WinAction where
  | setFullScreen (flag : Bool)
  | setBounds (b : Bounds)
deriving DecidableEq, Repr

/-- `applyOverlaySize(size, customWidth, customHeight)` (`part_000` lines
193–249), as the ordered list of window-manager actions it performs against a
primary display whose work area is `dispW × dispH`.  `customWidth` and
`customHeight` may be `undefined` (the handler at line 331 passes the raw
update fields).  The `switch` has no `default` case: an unrecognised mode
performs no action.  The model covers the body past the
`if (!overlayWindow) return` guard, i.e. an existing overlay window. -/
def applyOverlaySize (size : String) (customWidth customHeight : Option ℚ)
    (dispW dispH : ℚ) : List WinAction :=
  if size = "fullscreen" then
    [.setFullScreen true]
  else if size = "top-half" then
    [.setFullScreen false, .setBounds ⟨0, 0, dispW, mathFloor (dispH / 2)⟩]
  else if size = "bottom-half" then
    [.setFullScreen false, .setBounds ⟨0, mathFloor (dispH / 2), dispW, mathFloor (dispH / 2)⟩]
  else if size = "left-half" then
    [.setFullScreen false, .setBounds ⟨0, 0, mathFloor (dispW / 2), dispH⟩]
  else if size = "right-half" then
    [.setFullScreen false, .setBounds ⟨mathFloor (dispW / 2), 0, mathFloor (dispW / 2), dispH⟩]
  else if size = "center" then
    let centerWidth := mathFloor (dispW * (7/10))
    let centerHeight := mathFloor (dispH * (7/10))
    [.setFullScreen false,
     .setBounds ⟨mathFloor ((dispW - centerWidth) / 2), mathFloor ((dispH - centerHeight) / 2),
                 centerWidth, centerHeight⟩]
  else if size = "custom" then
    let w := min (jsOrNum customWidth 800) dispW
    let h := min (jsOrNum customHeight 600) dispH
    [.setFullScreen false,
     .setBounds ⟨mathFloor ((dispW - w) / 2), mathFloor ((dispH - h) / 2), w, h⟩]
  else
    []

/-- The bounds set by a list of window actions, if any (`setBounds` payload). -/
def getBounds (acts : List WinAction) : Option Bounds :=
  acts.findSome? fun a =>
    match a with
    | .setBounds b => some b
    | _ => none

/-- An observable side effect of the main process, in program order:
a write of the full record to the electron-store, an invocation of
`applyOverlaySize` with its raw arguments, an `update-overlay` snapshot send
to the overlay window, a window show/hide, or the `overlay-toggled`
notification to the control window. -/
inductive MainEvent where
  | storeSet (s : OverlayState)
  | resolve (size : String) (customWidth customHeight : Option ℚ)
  | broadcast (s : OverlayState)
  | showWin
  | hideWin
  | notifyToggled (b : Bool)
deriving DecidableEq, Repr

/-- Whether an event is an invocation of the geometry resolver. -/
def isResolve : MainEvent → Bool
  | .resolve _ _ _ => true
  | _ => false

/-- Whether an event is a snapshot broadcast to the overlay window. -/
def isBroadcast : MainEvent → Bool
  | .broadcast _ => true
  | _ => false

/-- `true` when no resolver invocation occurs at or after the first broadcast
in the trace, i.e. every resolver call precedes every broadcast. -/
def resolvesBeforeBroadcasts (evs : List MainEvent) : Bool :=
  (evs.dropWhile fun e => !isBroadcast e).all fun e => !isResolve e

/-- The `ipcMain.on('update-overlay')` handler (`part_000` lines 306–346):
merge, persist, then — when the overlay window exists and is not destroyed
(`overlayOk`) — invoke the resolver if `data.size` is truthy, always broadcast
the merged snapshot, and reconcile window visibility (`visible` is
`overlayWindow.isVisible()`) with the merged `isActive`.  Returns the merged
state and the event trace. -/
def updateOverlayHandler (prev : OverlayState) (visible : Bool) (overlayOk : Bool)
    (d : OverlayUpdate) : OverlayState × List MainEvent :=
  let s := mergeOverlay prev d
  let evs :=
    [MainEvent.storeSet s] ++
    (if overlayOk then
      (if truthyStr d.size then
        [MainEvent.resolve (jsOrStr d.size "") d.customWidth d.customHeight]
      else []) ++
      [MainEvent.broadcast s] ++
      (if s.isActive && !visible then [MainEvent.showWin]
       else if !s.isActive && visible then [MainEvent.hideWin]
       else [])
    else [])
  (s, evs)

/-- `moveReadingGuideUp()` (`part_000` lines 252–264): guarded by
`readingGuideEnabled && isActive`; step size is `readingGuideStepSize || 0.5`;
the position moves down numerically, clamped below at 0 by `Math.max`; the
snapshot is sent (when the overlay window exists, `overlayOk`) and the state
persisted.  Outside the guard nothing at all happens. -/
def moveReadingGuideUp (state : OverlayState) (overlayOk : Bool) :
    OverlayState × List MainEvent :=
  if state.readingGuideEnabled && state.isActive then
    let stepSize := numOr state.readingGuideStepSize (1/2)
    let s := { state with
      readingGuidePosition := max 0 (state.readingGuidePosition - stepSize) }
    (s, (if overlayOk then [MainEvent.broadcast s] else []) ++ [MainEvent.storeSet s])
  else
    (state, [])

/-- `moveReadingGuideDown()` (`part_000` lines 267–279): as `moveReadingGuideUp`
but the position moves up numerically, clamped above at 100 by `Math.min`. -/
def moveReadingGuideDown (state : OverlayState) (overlayOk : Bool) :
    OverlayState × List MainEvent :=
  if state.readingGuideEnabled && state.isActive then
    let stepSize := numOr state.readingGuideStepSize (1/2)
    let s := { state with
      readingGuidePosition := min 100 (state.readingGuidePosition + stepSize) }
    (s, (if overlayOk then [MainEvent.broadcast s] else []) ++ [MainEvent.storeSet s])
  else
    (state, [])

/-- `toggleOverlay()` (`part_000` lines 282–303), inside the
`if (overlayWindow)` guard: the new activation is the negation of the
window's *actual* visibility (`!overlayWindow.isVisible()`), not of the
stored flag; on activation the snapshot is sent before `show()`.  Returns the
new state, the new window visibility, and the event trace (persist and the
`overlay-toggled` notification follow the show/hide). -/
def toggleOverlay (state : OverlayState) (visible : Bool) :
    OverlayState × Bool × List MainEvent :=
  let newState := !visible
  let s := { state with isActive := newState }
  let evs :=
    (if newState then [MainEvent.broadcast s, MainEvent.showWin]
     else [MainEvent.hideWin]) ++
    [MainEvent.storeSet s, MainEvent.notifyToggled newState]
  (s, newState, evs)

/-- The DOM state the overlay window's inline script mutates: the tint `div`'s
background color and opacity, and the reading-guide gap's class, geometry and
box-shadow.  `opacity` is the painted opacity (the script assigns the string
`'0'` when inactive; CSS reads it as the number 0). -/
structure OverlayDom where
  backgroundColor : String
  opacity : ℚ
  guideActive : Bool
  guideHeightPx : ℚ
  guideTopPercent : ℚ
  guideBoxShadow : String
deriving DecidableEq, Repr

/-- The box-shadow string built by the renderer for a border of width `bw`
and color `bc`: one layer for `single`, two mirrored layers otherwise. -/
def guideShadow (borderStyle : String) (bw : ℚ) (bc : String) : String :=
  if borderStyle = "single" then
    s!"0 -{bw}px 0 {bc}"
  else
    s!"0 -{bw}px 0 {bc}, 0 {bw}px 0 {bc}"

/-- The overlay window's `ipcRenderer.on('update-overlay')` handler
(`part_000` lines 150–173): repaints the tint from the snapshot —
opacity is `data.isActive ? data.opacity : '0'` — and the guide band when
enabled (border parameters defaulted with `||`); when disabled only the
`active` class is removed, the other guide properties keep their previous
DOM values.  The snapshot itself is read-only here: the overlay window sends
nothing back and mutates no state. -/
def overlayRenderStep (dom : OverlayDom) (data : OverlayState) : OverlayDom :=
  let dom := { dom with
    backgroundColor := data.color
    opacity := if data.isActive then data.opacity else 0 }
  if data.readingGuideEnabled then
    let borderWidth := numOr data.readingGuideBorderWidth 3
    let borderColor := strOr data.readingGuideBorderColor "rgba(0,0,0,0.9)"
    let borderStyle := strOr data.readingGuideBorderStyle "double"
    { dom with
      guideActive := true
      guideHeightPx := data.readingGuideHeight
      guideTopPercent := data.readingGuidePosition
      guideBoxShadow := guideShadow borderStyle borderWidth borderColor }
  else
    { dom with guideActive := false }

/-- The `update-overlay` message the Control Surface sends: `preload.js`
packages the thirteen positional arguments of `window.electron.updateOverlay`
into the update object (lines 6–36), and both call sites in `part_001`
(the settings-sync effect, lines 152–161, and `handleToggleOverlay`,
lines 193–204) pass the literal `50` for `readingGuidePosition` and supply
every other argument from component state. -/
def controlSurfaceMessage (color : String) (opacity : ℚ) (isActive : Bool)
    (size : String) (customWidth customHeight : ℚ)
    (readingGuideEnabled : Bool) (readingGuideHeight readingGuideStepSize : ℚ)
    (readingGuideBorderWidth : ℚ) (readingGuideBorderColor : String)
    (readingGuideBorderStyle : String) : OverlayUpdate :=
  { color := some color
    opacity := some opacity
    isActive := some isActive
    size := some size
    customWidth := some customWidth
    customHeight := some customHeight
    readingGuideEnabled := some readingGuideEnabled
    readingGuideHeight := some readingGuideHeight
    readingGuidePosition := some 50
    readingGuideStepSize := some readingGuideStepSize
    readingGuideBorderWidth := some readingGuideBorderWidth
    readingGuideBorderColor := some readingGuideBorderColor
    readingGuideBorderStyle := some readingGuideBorderStyle }

/-- A state in which a nudge takes effect but escapes `[0, 100]`: guide
enabled, overlay active, position 100, step size −1. -/
def nudgeEscapeState : OverlayState :=
  { defaultOverlayState with
    readingGuideEnabled := true
    isActive := true
    readingGuidePosition := 100
    readingGuideStepSize := -1 }

/-- The update whose only present field is `customWidth = 500`. -/
def widthOnlyUpdate : OverlayUpdate :=
  { emptyUpdate with customWidth := some 500 }

/-! ## Claims -/

/-- C1, counterexample: the claim asserts the merge takes the update's value on
*every* present field, `size` included.  But the code merges `size` with
`data.size || current.size`, so the update whose `size` field is present with
the (falsy) value `""` is ignored: merging it into the default state leaves
`size` at `"fullscreen"`, not the update's value `""`. -/
theorem mergeOverlay_size_falsy_counterexample :
    ({ emptyUpdate with size := some "" } : OverlayUpdate).size = some "" ∧
    (mergeOverlay defaultOverlayState { emptyUpdate with size := some "" }).size = "fullscreen" ∧
    "fullscreen" ≠ "" :=
  ⟨rfl, rfl, by decide⟩

/-- C1 (amended): the merge performed by the `update-overlay` entry point is
field-by-field: every field absent from the update retains the prior state's
value, and every present field takes the update's value — except `size`,
which is merged with JavaScript `||`, so a present but *empty-string* size is
also ignored and retains the prior value. -/
theorem mergeOverlay_fieldwise (S : OverlayState) (U : OverlayUpdate) :
    ((∀ v, U.color = some v → (mergeOverlay S U).color = v) ∧
      (U.color = none → (mergeOverlay S U).color = S.color)) ∧
    ((∀ v, U.opacity = some v → (mergeOverlay S U).opacity = v) ∧
      (U.opacity = none → (mergeOverlay S U).opacity = S.opacity)) ∧
    ((∀ v, U.isActive = some v → (mergeOverlay S U).isActive = v) ∧
      (U.isActive = none → (mergeOverlay S U).isActive = S.isActive)) ∧
    ((∀ v, U.size = some v → v ≠ "" → (mergeOverlay S U).size = v) ∧
      (U.size = none ∨ U.size = some "" → (mergeOverlay S U).size = S.size)) ∧
    ((∀ v, U.customWidth = some v → (mergeOverlay S U).customWidth = v) ∧
      (U.customWidth = none → (mergeOverlay S U).customWidth = S.customWidth)) ∧
    ((∀ v, U.customHeight = some v → (mergeOverlay S U).customHeight = v) ∧
      (U.customHeight = none → (mergeOverlay S U).customHeight = S.customHeight)) ∧
    ((∀ v, U.readingGuideEnabled = some v → (mergeOverlay S U).readingGuideEnabled = v) ∧
      (U.readingGuideEnabled = none →
        (mergeOverlay S U).readingGuideEnabled = S.readingGuideEnabled)) ∧
    ((∀ v, U.readingGuideHeight = some v → (mergeOverlay S U).readingGuideHeight = v) ∧
      (U.readingGuideHeight = none →
        (mergeOverlay S U).readingGuideHeight = S.readingGuideHeight)) ∧
    ((∀ v, U.readingGuidePosition = some v → (mergeOverlay S U).readingGuidePosition = v) ∧
      (U.readingGuidePosition = none →
        (mergeOverlay S U).readingGuidePosition = S.readingGuidePosition)) ∧
    ((∀ v, U.readingGuideStepSize = some v → (mergeOverlay S U).readingGuideStepSize = v) ∧
      (U.readingGuideStepSize = none →
        (mergeOverlay S U).readingGuideStepSize = S.readingGuideStepSize)) ∧
    ((∀ v, U.readingGuideBorderWidth = some v → (mergeOverlay S U).readingGuideBorderWidth = v) ∧
      (U.readingGuideBorderWidth = none →
        (mergeOverlay S U).readingGuideBorderWidth = S.readingGuideBorderWidth)) ∧
    ((∀ v, U.readingGuideBorderColor = some v → (mergeOverlay S U).readingGuideBorderColor = v) ∧
      (U.readingGuideBorderColor = none →
        (mergeOverlay S U).readingGuideBorderColor = S.readingGuideBorderColor)) ∧
    ((∀ v, U.readingGuideBorderStyle = some v → (mergeOverlay S U).readingGuideBorderStyle = v) ∧
      (U.readingGuideBorderStyle = none →
        (mergeOverlay S U).readingGuideBorderStyle = S.readingGuideBorderStyle)) := by
  refine ⟨⟨?_, ?_⟩, ⟨?_, ?_⟩, ⟨?_, ?_⟩, ⟨?_, ?_⟩, ⟨?_, ?_⟩, ⟨?_, ?_⟩, ⟨?_, ?_⟩,
    ⟨?_, ?_⟩, ⟨?_, ?_⟩, ⟨?_, ?_⟩, ⟨?_, ?_⟩, ⟨?_, ?_⟩, ⟨?_, ?_⟩⟩ <;>
    first
      | (rintro (h | h) <;> simp [mergeOverlay, jsDefined, jsOrStr, strOr, h])
      | (intro v h hne; simp [mergeOverlay, jsDefined, jsOrStr, strOr, h, hne])
      | (intro v h; simp [mergeOverlay, jsDefined, jsOrStr, strOr, h])
      | (intro h; simp [mergeOverlay, jsDefined, jsOrStr, strOr, h])

/-- C1 witness: the amended merge rule at a concrete prior state and update —
a present `color` is taken from the update, an absent `opacity` retains the
default. -/
theorem mergeOverlay_fieldwise_attains :
    (mergeOverlay defaultOverlayState { emptyUpdate with color := some "#abcdef" }).color =
      "#abcdef" ∧
    (mergeOverlay defaultOverlayState { emptyUpdate with color := some "#abcdef" }).opacity =
      defaultOverlayState.opacity :=
  ⟨(mergeOverlay_fieldwise defaultOverlayState
      { emptyUpdate with color := some "#abcdef" }).1.1 "#abcdef" rfl,
   (mergeOverlay_fieldwise defaultOverlayState
      { emptyUpdate with color := some "#abcdef" }).2.1.2 rfl⟩

/-- C5: the toggle sets `isActive` (and the resulting visibility) to the
negation of the window's actual current visibility, not of the stored flag;
on activation the event trace is exactly snapshot-broadcast, then show, then
persist, then notification — render before reveal; and toggling twice from a
hidden surface yields `{isActive := true, visible}` then
`{isActive := false, hidden}` for any stored prior `isActive`. -/
theorem toggleOverlay_semantics (S : OverlayState) (vis : Bool) :
    ((toggleOverlay S vis).1.isActive = !vis ∧ (toggleOverlay S vis).2.1 = !vis) ∧
    ((toggleOverlay S false).2.2 =
      [MainEvent.broadcast (toggleOverlay S false).1, MainEvent.showWin,
       MainEvent.storeSet (toggleOverlay S false).1, MainEvent.notifyToggled true]) ∧
    ((toggleOverlay S false).1.isActive = true ∧ (toggleOverlay S false).2.1 = true) ∧
    ((toggleOverlay (toggleOverlay S false).1 (toggleOverlay S false).2.1).1.isActive = false ∧
      (toggleOverlay (toggleOverlay S false).1 (toggleOverlay S false).2.1).2.1 = false) := by
  refine ⟨⟨?_, ?_⟩, ?_, ⟨rfl, rfl⟩, ⟨rfl, rfl⟩⟩ <;> cases vis <;> rfl

/-- C6: while `readingGuideEnabled` or `isActive` is false, either nudge is a
complete no-op — the state (hence `readingGuidePosition`) is returned
unchanged and the event trace is empty: no store write, no broadcast. -/
theorem nudge_noop (S : OverlayState) (ok : Bool)
    (h : S.readingGuideEnabled = false ∨ S.isActive = false) :
    moveReadingGuideUp S ok = (S, []) ∧ moveReadingGuideDown S ok = (S, []) := by
  rcases h with h | h <;> simp [moveReadingGuideUp, moveReadingGuideDown, h]

/-- C6 witness: nudging in the default state (guide disabled, inactive) does
nothing. -/
theorem nudge_noop_attains :
    moveReadingGuideUp defaultOverlayState true = (defaultOverlayState, []) ∧
    moveReadingGuideDown defaultOverlayState true = (defaultOverlayState, []) :=
  nudge_noop defaultOverlayState true (Or.inl rfl)

/-- C9: every `updateOverlay` message the Control Surface builds carries
`readingGuidePosition = 50` (a present field), so merging any such message
into any prior state resets the reading-guide position to 50, discarding a
position previously reached via hotkey nudges. -/
theorem control_surface_resets_guide_position (S : OverlayState)
    (c : String) (o : ℚ) (a : Bool) (sz : String) (cw ch : ℚ) (ge : Bool)
    (gh gs gbw : ℚ) (gbc gbs : String) :
    (controlSurfaceMessage c o a sz cw ch ge gh gs gbw gbc gbs).readingGuidePosition =
      some 50 ∧
    (mergeOverlay S
      (controlSurfaceMessage c o a sz cw ch ge gh gs gbw gbc gbs)).readingGuidePosition =
      50 :=
  ⟨rfl, rfl⟩

/-- C2, counterexample: the claim asserts the position lies in `[0, 100]`
after every effective nudge for *any* starting value and *any* positive or
negative step size.  But `moveReadingGuideUp` clamps only from below
(`Math.max(0, …)`): with position 100 and step size −1 the nudge takes
effect and yields 101, outside `[0, 100]`. -/
theorem nudge_escape_counterexample :
    nudgeEscapeState.readingGuideEnabled = true ∧
    nudgeEscapeState.isActive = true ∧
    (moveReadingGuideUp nudgeEscapeState true).1.readingGuidePosition = 101 ∧
    ¬ (moveReadingGuideUp nudgeEscapeState true).1.readingGuidePosition ≤ 100 := by
  have hpos : (moveReadingGuideUp nudgeEscapeState true).1.readingGuidePosition = 101 := by
    simp only [moveReadingGuideUp, nudgeEscapeState, defaultOverlayState]
    norm_num [numOr, max_def]
  exact ⟨rfl, rfl, hpos, by rw [hpos]; norm_num⟩

/-- C2 (amended): after an effective nudge (guide enabled and overlay active)
the position lies in `[0, 100]` provided the starting position lies in
`[0, 100]` and the step size is nonnegative; each direction clamps only on
its own side (move-up at 0, move-down at 100), so a negative step size or an
out-of-range starting position can leave the interval. -/
theorem nudge_position_clamped (S : OverlayState) (ok : Bool)
    (hE : S.readingGuideEnabled = true) (hA : S.isActive = true)
    (h0 : 0 ≤ S.readingGuidePosition) (h1 : S.readingGuidePosition ≤ 100)
    (hs : 0 ≤ S.readingGuideStepSize) :
    (0 ≤ (moveReadingGuideUp S ok).1.readingGuidePosition ∧
      (moveReadingGuideUp S ok).1.readingGuidePosition ≤ 100) ∧
    (0 ≤ (moveReadingGuideDown S ok).1.readingGuidePosition ∧
      (moveReadingGuideDown S ok).1.readingGuidePosition ≤ 100) := by
  have hstep : 0 ≤ numOr S.readingGuideStepSize (1/2) := by
    unfold numOr
    split
    · norm_num
    · exact hs
  refine ⟨⟨?_, ?_⟩, ⟨?_, ?_⟩⟩ <;> simp only [moveReadingGuideUp, moveReadingGuideDown, hE, hA,
    Bool.and_self, if_true]
  · exact le_max_left 0 _
  · exact max_le (by norm_num) (by linarith)
  · exact le_min (by norm_num) (by linarith)
  · exact min_le_left 100 _

/-- C2 witness: the amended bound at a concrete state — guide enabled,
active, position 50, step size 1/2 —nudges stay inside `[0, 100]`. -/
theorem nudge_position_clamped_attains :
    (0 ≤ (moveReadingGuideUp
        { defaultOverlayState with readingGuideEnabled := true, isActive := true }
        true).1.readingGuidePosition ∧
      (moveReadingGuideUp
        { defaultOverlayState with readingGuideEnabled := true, isActive := true }
        true).1.readingGuidePosition ≤ 100) ∧
    (0 ≤ (moveReadingGuideDown
        { defaultOverlayState with readingGuideEnabled := true, isActive := true }
        true).1.readingGuidePosition ∧
      (moveReadingGuideDown
        { defaultOverlayState with readingGuideEnabled := true, isActive := true }
        true).1.readingGuidePosition ≤ 100) :=
  nudge_position_clamped
    { defaultOverlayState with readingGuideEnabled := true, isActive := true }
    true rfl rfl (by norm_num [defaultOverlayState]) (by norm_num [defaultOverlayState])
    (by norm_num [defaultOverlayState])

/-- C3: against a 1920×1080 work area the resolver clears the full-screen
flag and sets bounds `{0, 0, 1920, 540}` for `top-half`; bounds
`{288, 162, 1344, 756}` for `center` (70 % of each dimension, floored,
centred); and for `custom` with `customWidth = 3000` clamps the width to
1920 and centres it at `x = 0`, whatever the custom height. -/
theorem applyOverlaySize_at_1920_1080 (cw ch : Option ℚ) :
    applyOverlaySize "top-half" cw ch 1920 1080 =
      [.setFullScreen false, .setBounds ⟨0, 0, 1920, 540⟩] ∧
    applyOverlaySize "center" cw ch 1920 1080 =
      [.setFullScreen false, .setBounds ⟨288, 162, 1344, 756⟩] ∧
    ∃ y h, applyOverlaySize "custom" (some 3000) ch 1920 1080 =
      [.setFullScreen false, .setBounds ⟨0, y, 1920, h⟩] := by
  refine ⟨?_, ?_, ?_⟩
  · unfold applyOverlaySize
    rw [if_neg (by decide), if_pos rfl]
    norm_num [mathFloor]
  · unfold applyOverlaySize
    rw [if_neg (by decide), if_neg (by decide), if_neg (by decide), if_neg (by decide),
      if_neg (by decide), if_pos rfl]
    norm_num [mathFloor]
  · refine ⟨mathFloor ((1080 - min (jsOrNum ch 600) 1080) / 2), min (jsOrNum ch 600) 1080, ?_⟩
    unfold applyOverlaySize
    rw [if_neg (by decide), if_neg (by decide), if_neg (by decide), if_neg (by decide),
      if_neg (by decide), if_neg (by decide), if_pos rfl]
    have hw : min (jsOrNum (some 3000) 800) (1920 : ℚ) = 1920 := by
      norm_num [jsOrNum, numOr, min_def]
    rw [hw]
    norm_num [mathFloor]

/-- C7: for every snapshot the overlay window receives, the painted opacity
is the snapshot's `opacity` when `isActive` is true and 0 when it is false;
and the `opacity` field the main process stores is determined solely by the
update and the prior state (`data.opacity !== undefined ? … : …`) — the
paint-time zero is never written back into the record. -/
theorem painted_opacity (dom : OverlayDom) (S prev : OverlayState)
    (vis ok : Bool) (U : OverlayUpdate) :
    (overlayRenderStep dom S).opacity = (if S.isActive then S.opacity else 0) ∧
    (updateOverlayHandler prev vis ok U).1.opacity = jsDefined U.opacity prev.opacity := by
  constructor
  · by_cases hG : S.readingGuideEnabled <;> simp [overlayRenderStep, hG]
  · rfl

/-- C8: a size value outside the seven recognised modes reaches no `case` of
the `switch`, which has no `default`: the resolver performs no action at all
— neither the full-screen flag nor the bounds are touched. -/
theorem applyOverlaySize_unknown_noop (sz : String) (cw ch : Option ℚ) (W H : ℚ)
    (h1 : sz ≠ "fullscreen") (h2 : sz ≠ "top-half") (h3 : sz ≠ "bottom-half")
    (h4 : sz ≠ "left-half") (h5 : sz ≠ "right-half") (h6 : sz ≠ "center")
    (h7 : sz ≠ "custom") :
    applyOverlaySize sz cw ch W H = [] := by
  simp [applyOverlaySize, h1, h2, h3, h4, h5, h6, h7]

/-- C8 witness: the unrecognised mode `"medium"` performs no window action. -/
theorem applyOverlaySize_unknown_noop_attains :
    applyOverlaySize "medium" none none 1920 1080 = [] :=
  applyOverlaySize_unknown_noop "medium" none none 1920 1080 (by decide) (by decide)
    (by decide) (by decide) (by decide) (by decide) (by decide)

/-- C4, counterexample: the claim asserts the resolver runs for every update
changing `size`, `customWidth` or `customHeight`.  But the handler guards the
resolver call with `if (data.size)` alone: the update carrying only
`customWidth = 500` changes `customWidth` (the prior value is 800), yet the
trace contains no resolver invocation. -/
theorem resolver_skip_counterexample :
    widthOnlyUpdate.customWidth = some 500 ∧
    defaultOverlayState.customWidth ≠ 500 ∧
    (mergeOverlay defaultOverlayState widthOnlyUpdate).customWidth = 500 ∧
    (updateOverlayHandler defaultOverlayState false true widthOnlyUpdate).2.filter
      (fun e => isResolve e) = [] := by
  refine ⟨rfl, by norm_num [defaultOverlayState], rfl, rfl⟩

/-- C4 (amended): the resolver is invoked exactly when the update's `size`
field is present and truthy (non-empty) — then exactly once, with the raw
update fields, and before the snapshot broadcast; an update whose `size` is
absent or empty never invokes it, even when it changes `customWidth` or
`customHeight` (and a truthy `size` equal to the current one still does). -/
theorem resolver_invocation (S : OverlayState) (vis : Bool) (U : OverlayUpdate) :
    (∀ z, U.size = some z → z ≠ "" →
      (updateOverlayHandler S vis true U).2.filter (fun e => isResolve e) =
        [MainEvent.resolve z U.customWidth U.customHeight] ∧
      resolvesBeforeBroadcasts (updateOverlayHandler S vis true U).2 = true) ∧
    ((U.size = none ∨ U.size = some "") →
      (updateOverlayHandler S vis true U).2.filter (fun e => isResolve e) = []) := by
  constructor
  · intro z hz hne
    cases hA : (mergeOverlay S U).isActive <;> cases vis <;>
      simp [updateOverlayHandler, truthyStr, hz, hne, jsOrStr, strOr, hA,
        resolvesBeforeBroadcasts, isResolve, isBroadcast, List.dropWhile, List.filter]
  · rintro (h | h) <;>
      cases hA : (mergeOverlay S U).isActive <;> cases vis <;>
        simp [updateOverlayHandler, truthyStr, h, hA, isResolve, List.filter]

/-- C4 witness: a concrete update with `size = "center"` invokes the resolver
once, with the raw fields, before the broadcast. -/
theorem resolver_invocation_attains :
    (updateOverlayHandler defaultOverlayState false true
        { emptyUpdate with size := some "center" }).2.filter (fun e => isResolve e) =
      [MainEvent.resolve "center" none none] ∧
    resolvesBeforeBroadcasts
      (updateOverlayHandler defaultOverlayState false true
        { emptyUpdate with size := some "center" }).2 = true :=
  (resolver_invocation defaultOverlayState false
    { emptyUpdate with size := some "center" }).1 "center" rfl (by decide)

/-- C10: in `custom` mode the resolver substitutes 800 for a missing or zero
`customWidth` and 600 for a missing or zero `customHeight` before clamping to
the display dimension (so a zero custom dimension never yields a zero-sized
window on a positive display), while a negative custom dimension passes
through to the bounds unmodified. -/
theorem applyOverlaySize_custom_defaults (cw ch : Option ℚ) (W H x : ℚ)
    (hW : 0 < W) (hH : 0 < H) (hx : x < 0) :
    ((getBounds (applyOverlaySize "custom" none ch W H)).map Bounds.width =
      some (min 800 W)) ∧
    ((getBounds (applyOverlaySize "custom" (some 0) ch W H)).map Bounds.width =
      some (min 800 W)) ∧
    (0 < min (800 : ℚ) W) ∧
    ((getBounds (applyOverlaySize "custom" cw none W H)).map Bounds.height =
      some (min 600 H)) ∧
    ((getBounds (applyOverlaySize "custom" cw (some 0) W H)).map Bounds.height =
      some (min 600 H)) ∧
    (0 < min (600 : ℚ) H) ∧
    ((getBounds (applyOverlaySize "custom" (some x) ch W H)).map Bounds.width = some x) ∧
    ((getBounds (applyOverlaySize "custom" cw (some x) W H)).map Bounds.height = some x) := by
  have hxne : x ≠ 0 := ne_of_lt hx
  have hxW : min x W = x := min_eq_left (le_of_lt (lt_trans hx hW))
  have hxH : min x H = x := min_eq_left (le_of_lt (lt_trans hx hH))
  refine ⟨?_, ?_, lt_min (by norm_num) hW, ?_, ?_, lt_min (by norm_num) hH, ?_, ?_⟩ <;>
    simp [applyOverlaySize, getBounds, jsOrNum, numOr, hxne, hxW, hxH, List.findSome?]

/-- C10 witness: the defaults and the negative pass-through at a 1920×1080
display with custom height −5. -/
theorem applyOverlaySize_custom_defaults_attains :
    ((getBounds (applyOverlaySize "custom" none none 1920 1080)).map Bounds.width =
      some (min 800 1920)) ∧
    ((getBounds (applyOverlaySize "custom" none (some (-5)) 1920 1080)).map Bounds.height =
      some (-5)) :=
  ⟨(applyOverlaySize_custom_defaults none none 1920 1080 (-5) (by norm_num) (by norm_num)
      (by norm_num)).1,
   (applyOverlaySize_custom_defaults none none 1920 1080 (-5) (by norm_num) (by norm_num)
      (by norm_num)).2.2.2.2.2.2.2⟩

end DyslexicOverlay
